import Mathlib

/-!
Verification of the structured mesh generation and geometric classification
engine of the TV wall mount topology-optimization repository.

The Python sources are shallowly embedded here:
  - real-valued quantities are modelled as exact rationals;
  - the mesh data model (`MockMesh`, `MockElement`) and the generator
    (`MeshGenerator._generate_nodes`, `._generate_elements`,
    `.create_structured_mesh`, `create_3d_mesh`) come from
    `src/utils/mesh_utilities.py`;
  - the region predicates and the element/node classification loops come from
    `TvSupport.py`;
  - the optimizer-side region and boundary-condition definitions
    (`_define_regions`, `_define_boundary_conditions`,
    `generate_adaptive_mesh`, `_generate_single_xml_config`) come from
    `src/core/tv_mount_optimizer.py`;
  - the serializer (`write_ansys_mesh`) comes from `src/utils/mesh_utilities.py`.

Python code that can raise at runtime (division by zero) is modelled with
`Except`; everything else in the translated fragment is total.
-/

attribute [local semireducible] Rat.add Rat.mul Rat.inv Rat.sub

/-- Mirrors `MockElement` (mesh_utilities.py, lines 248-253): a barycenter and a
mutable region tag whose constructor default is `"mech"`. -/
structure MockElement where
  center : ℚ × ℚ × ℚ
  region : String
deriving DecidableEq, Repr

/-- Mirrors `MockMesh` (mesh_utilities.py, lines 231-245): node coordinates,
elements, and named boundary-condition node sets. -/
structure MockMesh where
  nodes : List (ℚ × ℚ × ℚ)
  elements : List MockElement
  bc : List (String × List ℕ)
deriving DecidableEq, Repr

/-- Mirrors `MeshGenerator._generate_nodes` (mesh_utilities.py, lines 194-211):
k-outer, j-middle, i-inner loops over the node lattice, with
dx = width / nx and x = i * dx (and analogously for y, z). -/
def generate_nodes (nx ny nz : ℕ) (width height depth : ℚ) : List (ℚ × ℚ × ℚ) :=
  let dx := width / (nx : ℚ)
  let dy := height / (ny : ℚ)
  let dz := depth / (nz : ℚ)
  (List.range (nz + 1)).flatMap (fun k : ℕ =>
    (List.range (ny + 1)).flatMap (fun j : ℕ =>
      (List.range (nx + 1)).map (fun i : ℕ =>
        ((i : ℚ) * dx, (j : ℚ) * dy, (k : ℚ) * dz))))

/-- Mirrors `MeshGenerator._generate_elements` (mesh_utilities.py, lines
213-228).  The source computes the element centers from the hardcoded
reference dimensions (comments there read "Assuming domain width of 10",
height 8, depth 6); the domain arguments of the surrounding calls are not
consulted, and every element starts with the default region `"mech"`. -/
def generate_elements (nx ny nz : ℕ) : List MockElement :=
  (List.range nz).flatMap (fun k : ℕ =>
    (List.range ny).flatMap (fun j : ℕ =>
      (List.range nx).map (fun i : ℕ =>
        { center := (((i : ℚ) + 1/2) * (10 / (nx : ℚ)),
                     ((j : ℚ) + 1/2) * (8 / (ny : ℚ)),
                     ((k : ℚ) + 1/2) * (6 / (nz : ℚ))),
          region := "mech" })))

/-- Mirrors `MeshGenerator.create_structured_mesh` (mesh_utilities.py, lines
163-192).  The source performs no input validation whatsoever: the only
failure mode is Python's `ZeroDivisionError` raised by the cell-size
divisions `width / nx`, `height / ny`, `depth / nz` when a resolution
component is zero.  Domain dimensions are never checked. -/
def create_structured_mesh (nx ny nz : ℕ) (width height depth : ℚ) :
    Except String MockMesh :=
  if nx = 0 ∨ ny = 0 ∨ nz = 0 then
    Except.error "ZeroDivisionError"
  else
    Except.ok { nodes := generate_nodes nx ny nz width height depth,
                elements := generate_elements nx ny nz,
                bc := [] }

/-- Mirrors `create_3d_mesh` (mesh_utilities.py, lines 257-260): a thin
compatibility wrapper around `create_structured_mesh`. -/
def create_3d_mesh (nx ny nz : ℕ) (width height depth : ℚ) :
    Except String MockMesh :=
  create_structured_mesh nx ny nz width height depth

/-- Mirrors `WALL_PLATE_Z_MIN` (TvSupport.py line 44). -/
def WALL_PLATE_Z_MIN : ℚ := 0

/-- Mirrors `WALL_PLATE_Z_MAX = 0.25` (TvSupport.py line 45). -/
def WALL_PLATE_Z_MAX : ℚ := 1/4

/-- Mirrors `TV_SURFACE_Z_MIN = 5.75` (TvSupport.py line 48). -/
def TV_SURFACE_Z_MIN : ℚ := 23/4

/-- Mirrors `TV_SURFACE_Z_MAX = 6.0` (TvSupport.py line 49). -/
def TV_SURFACE_Z_MAX : ℚ := 6

/-- Mirrors `FORCE_RADIUS = 0.2` (TvSupport.py line 52). -/
def FORCE_RADIUS : ℚ := 1/5

/-- Mirrors `FORCE_CENTERS` (TvSupport.py line 53). -/
def FORCE_CENTERS : List (ℚ × ℚ) := [(2, 2), (8, 2), (2, 6), (8, 6)]

/-- Mirrors `is_in_wall_plate` (TvSupport.py lines 72-76); every interval test
is strict on both bounds. -/
def is_in_wall_plate (x y z : ℚ) : Prop :=
  4 < x ∧ x < 6 ∧ 0 < y ∧ y < 8 ∧ WALL_PLATE_Z_MIN < z ∧ z < WALL_PLATE_Z_MAX

instance (x y z : ℚ) : Decidable (is_in_wall_plate x y z) := by
  unfold is_in_wall_plate; infer_instance

/-- Mirrors `is_in_wall_void` (TvSupport.py lines 78-82). -/
def is_in_wall_void (x y z : ℚ) : Prop :=
  ((0 < x ∧ x < 4) ∨ (6 < x ∧ x < 10)) ∧ 0 < y ∧ y < 8 ∧
    WALL_PLATE_Z_MIN < z ∧ z < WALL_PLATE_Z_MAX

instance (x y z : ℚ) : Decidable (is_in_wall_void x y z) := by
  unfold is_in_wall_void; infer_instance

/-- Mirrors `is_in_tv_mounting_solid` (TvSupport.py lines 84-98): the guard on
the front z-layer followed by the corner-support, side-support and
center-mount boxes. -/
def is_in_tv_mounting_solid (x y z : ℚ) : Prop :=
  (TV_SURFACE_Z_MIN < z ∧ z < TV_SURFACE_Z_MAX) ∧
    ((((1 < x ∧ x < 3) ∨ (7 < x ∧ x < 9)) ∧ 0 < y ∧ y < 8) ∨
     (3 < x ∧ x < 7 ∧ ((0 < y ∧ y < 3) ∨ (5 < y ∧ y < 8))) ∨
     (3 < x ∧ x < 7 ∧ 3 < y ∧ y < 5))

instance (x y z : ℚ) : Decidable (is_in_tv_mounting_solid x y z) := by
  unfold is_in_tv_mounting_solid; infer_instance

/-- Mirrors `is_in_tv_mounting_void` (TvSupport.py lines 100-111). -/
def is_in_tv_mounting_void (x y z : ℚ) : Prop :=
  (TV_SURFACE_Z_MIN < z ∧ z < TV_SURFACE_Z_MAX) ∧
    ((3 < x ∧ x < 7 ∧ ((0 < y ∧ y < 3) ∨ (5 < y ∧ y < 8))) ∨
     (((0 < x ∧ x < 1) ∨ (9 < x ∧ x < 10)) ∧ 0 < y ∧ y < 8))

instance (x y z : ℚ) : Decidable (is_in_tv_mounting_void x y z) := by
  unfold is_in_tv_mounting_void; infer_instance

/-- Condition of the first (solid) branch of the element-region loop
(TvSupport.py line 118). -/
def solid_condition (c : ℚ × ℚ × ℚ) : Prop :=
  is_in_wall_plate c.1 c.2.1 c.2.2 ∨ is_in_tv_mounting_solid c.1 c.2.1 c.2.2

instance (c : ℚ × ℚ × ℚ) : Decidable (solid_condition c) := by
  unfold solid_condition; infer_instance

/-- Condition of the second (void) branch of the element-region loop
(TvSupport.py line 122). -/
def void_condition (c : ℚ × ℚ × ℚ) : Prop :=
  is_in_wall_void c.1 c.2.1 c.2.2 ∨ is_in_tv_mounting_void c.1 c.2.1 c.2.2

instance (c : ℚ × ℚ × ℚ) : Decidable (void_condition c) := by
  unfold void_condition; infer_instance

/-- Mirrors the body of the element-region assignment loop (TvSupport.py lines
114-126): solid predicates first, then void predicates; an element matching
neither keeps its current region (the constructor default `"mech"`). -/
def assign_region (e : MockElement) : MockElement :=
  if solid_condition e.center then { e with region := "solid" }
  else if void_condition e.center then { e with region := "void" }
  else e

/-- Mirrors the whole classification pass of TvSupport.py lines 114-126 applied
to a mesh. -/
def assign_regions (m : MockMesh) : MockMesh :=
  { m with elements := m.elements.map assign_region }

/-- Mirrors the `back_support` branch of the node classification loop
(TvSupport.py lines 139-143): 0-based node indices from `enumerate`. -/
def back_support_nodes (nodes : List (ℚ × ℚ × ℚ)) : List ℕ :=
  (nodes.enum.filter (fun p =>
    decide (4 < p.2.1 ∧ p.2.1 < 6 ∧ 0 < p.2.2.1 ∧ p.2.2.1 < 8 ∧
      WALL_PLATE_Z_MIN < p.2.2.2 ∧ p.2.2.2 < WALL_PLATE_Z_MAX))).map Prod.fst

/-- Mirrors the force-node branch of the node classification loop
(TvSupport.py lines 146-150): inside the front z-layer, a node joins the
force set of center `c` when its squared planar distance to `c` is at most
`FORCE_RADIUS ** 2` (an inclusive test, unlike the region predicates). -/
def force_nodes (nodes : List (ℚ × ℚ × ℚ)) (c : ℚ × ℚ) : List ℕ :=
  (nodes.enum.filter (fun p =>
    decide (TV_SURFACE_Z_MIN < p.2.2.2 ∧ p.2.2.2 < TV_SURFACE_Z_MAX ∧
      (p.2.1 - c.1) * (p.2.1 - c.1) + (p.2.2.1 - c.2) * (p.2.2.1 - c.2) ≤
        FORCE_RADIUS * FORCE_RADIUS))).map Prod.fst

/-- Mirrors TvSupport.py lines 152-155: `back_support` followed by the four
force sets named `force_1` .. `force_4` (1-based from `enumerate(..., 1)`). -/
def tv_support_bc (nodes : List (ℚ × ℚ × ℚ)) : List (String × List ℕ) :=
  ("back_support", back_support_nodes nodes) ::
    FORCE_CENTERS.enum.map (fun p =>
      ("force_" ++ toString (p.1 + 1), force_nodes nodes p.2))

/-- Mirrors the `GeometryConfig` dataclass (tv_mount_optimizer.py lines
83-94) restricted to the fields the translated fragment reads. -/
structure GeometryConfig where
  width : ℚ := 10
  height : ℚ := 8
  depth : ℚ := 6
  wall_thickness : ℚ := 1/4
  mount_thickness : ℚ := 1/4
  tv_weight : ℚ := 50
  mounting_points : List (ℚ × ℚ) := [(2, 2), (8, 2), (2, 6), (8, 6)]
  mounting_hole_radius : ℚ := 1/5
deriving DecidableEq, Repr

/-- Mirrors the `LoadType` enum (tv_mount_optimizer.py lines 52-58). -/
inductive LoadType where
  | STATIC
  | DYNAMIC
  | FATIGUE
  | SEISMIC
  | THERMAL
deriving DecidableEq, Repr

/-- Mirrors the `LoadCase` dataclass (tv_mount_optimizer.py lines 70-80). -/
structure LoadCase where
  name : String
  load_type : LoadType
  force_magnitude : ℚ
  force_direction : ℚ × ℚ × ℚ := (0, -1, 0)
  frequency : Option ℚ := none
  cycles : Option ℕ := none
  safety_factor : ℚ := 2
  description : String := ""
deriving DecidableEq, Repr

/-- Mirrors the `OptimizationConfig` dataclass (tv_mount_optimizer.py lines
107-115) restricted to the fields read by the XML compiler. -/
structure OptimizationConfig where
  volume_fraction : ℚ := 1/10
  max_iterations : ℕ := 100
  convergence_tolerance : ℚ := 1/1000000
  filter_radius : ℚ := 17/10
  penalty_parameter : ℚ := 3
deriving DecidableEq, Repr

/-- Mirrors `TVMountOptimizer._is_in_tv_mount_region` (tv_mount_optimizer.py
lines 336-350): the main mounting plate box, or the mounting-arm boxes
guarded by the front z-layer. -/
def is_in_tv_mount_region (g : GeometryConfig) (x y z : ℚ) : Prop :=
  (3 < x ∧ x < 7 ∧ 3 < y ∧ y < 5 ∧
    g.depth - g.mount_thickness < z ∧ z < g.depth) ∨
  (((((1 < x ∧ x < 3) ∨ (7 < x ∧ x < 9)) ∧ 0 < y ∧ y < 8) ∨
      (3 < x ∧ x < 7 ∧ ((0 < y ∧ y < 3) ∨ (5 < y ∧ y < 8)))) ∧
    g.depth - g.mount_thickness < z ∧ z < g.depth)

instance (g : GeometryConfig) (x y z : ℚ) :
    Decidable (is_in_tv_mount_region g x y z) := by
  unfold is_in_tv_mount_region; infer_instance

/-- Mirrors `TVMountOptimizer._is_in_tv_void_region` (tv_mount_optimizer.py
lines 352-364). -/
def is_in_tv_void_region (g : GeometryConfig) (x y z : ℚ) : Prop :=
  ((3 < x ∧ x < 7 ∧ 0 < y ∧ y < 3) ∨
   (3 < x ∧ x < 7 ∧ 5 < y ∧ y < 8) ∨
   (0 < x ∧ x < 1 ∧ 0 < y ∧ y < 8) ∨
   (9 < x ∧ x < 10 ∧ 0 < y ∧ y < 8)) ∧
    g.depth - g.mount_thickness < z ∧ z < g.depth

instance (g : GeometryConfig) (x y z : ℚ) :
    Decidable (is_in_tv_void_region g x y z) := by
  unfold is_in_tv_void_region; infer_instance

/-- Mirrors the body of the `TVMountOptimizer._define_regions` loop
(tv_mount_optimizer.py lines 306-332): an ordered elif chain that tags each
element solid, void or (explicitly, in the final else) `"mech"`. -/
def define_regions_assign (g : GeometryConfig) (e : MockElement) : MockElement :=
  let x := e.center.1
  let y := e.center.2.1
  let z := e.center.2.2
  if 4 < x ∧ x < 6 ∧ 0 < y ∧ y < 8 ∧ 0 < z ∧ z < g.wall_thickness then
    { e with region := "solid" }
  else if ((0 < x ∧ x < 4) ∨ (6 < x ∧ x < 10)) ∧ 0 < y ∧ y < 8 ∧
      0 < z ∧ z < g.wall_thickness then
    { e with region := "void" }
  else if is_in_tv_mount_region g x y z then
    { e with region := "solid" }
  else if is_in_tv_void_region g x y z then
    { e with region := "void" }
  else
    { e with region := "mech" }

/-- Mirrors the `back_support` branch of
`TVMountOptimizer._define_boundary_conditions` (tv_mount_optimizer.py line
383): the z-bound 0.25 is hardcoded there. -/
def opt_back_support (nodes : List (ℚ × ℚ × ℚ)) : List ℕ :=
  (nodes.enum.filter (fun p =>
    decide (4 < p.2.1 ∧ p.2.1 < 6 ∧ 0 < p.2.2.1 ∧ p.2.2.1 < 8 ∧
      0 < p.2.2.2 ∧ p.2.2.2 < 1/4))).map Prod.fst

/-- Mirrors the force-set branch of
`TVMountOptimizer._define_boundary_conditions` (tv_mount_optimizer.py lines
386-392): the membership test is purely geometric (z-layer band plus the
inclusive squared-distance test) and does not read the load case. -/
def opt_force_set (g : GeometryConfig) (nodes : List (ℚ × ℚ × ℚ)) (c : ℚ × ℚ) :
    List ℕ :=
  (nodes.enum.filter (fun p =>
    decide ((g.depth - g.mount_thickness < p.2.2.2 ∧ p.2.2.2 < g.depth) ∧
      (p.2.1 - c.1) * (p.2.1 - c.1) + (p.2.2.1 - c.2) * (p.2.2.1 - c.2) ≤
        g.mounting_hole_radius * g.mounting_hole_radius))).map Prod.fst

/-- Mirrors `TVMountOptimizer._define_boundary_conditions` (tv_mount_optimizer.py
lines 366-406): `back_support` first, then, for every load case in order and
every mounting point in order, a force set named
`{load_case_name}_force_{j+1}` whose members are selected by the
load-case-independent geometric test. -/
def define_boundary_conditions (g : GeometryConfig) (load_case_names : List String)
    (nodes : List (ℚ × ℚ × ℚ)) : List (String × List ℕ) :=
  ("back_support", opt_back_support nodes) ::
    load_case_names.flatMap (fun nm =>
      g.mounting_points.enum.map (fun p =>
        (nm ++ "_force_" ++ toString (p.1 + 1), opt_force_set g nodes p.2)))

/-- Mirrors `TVMountOptimizer.generate_adaptive_mesh` (tv_mount_optimizer.py
lines 256-296).  The resolutions are derived with Python `int()` truncation
(equal to the floor for the nonnegative values arising here).  The source
computes `thickness = 2 * width / optimal_nx` and logs it but never compares
any thickness against the z-cell size: no validation of any kind is
performed between mesh creation and classification. -/
def generate_adaptive_mesh (g : GeometryConfig) (base_resolution : ℕ)
    (load_case_names : List String) : Except String MockMesh := do
  let optimal_nx : ℕ := max base_resolution (⌊g.width * 20⌋).toNat
  let optimal_ny : ℕ := (⌊(g.height / g.width) * (optimal_nx : ℚ)⌋).toNat
  let optimal_nz : ℕ := (⌊(g.depth / g.width) * (optimal_nx : ℚ)⌋).toNat
  let mesh ← create_3d_mesh optimal_nx optimal_ny optimal_nz
    g.width g.height g.depth
  let classified := { mesh with elements := mesh.elements.map (define_regions_assign g) }
  pure { classified with bc := classified.bc ++
    define_boundary_conditions g load_case_names classified.nodes }

/-- Concatenation of a list of strings, mirroring repeated `+=` accumulation. -/
def str_concat : List String → String
  | [] => ""
  | s :: t => s ++ str_concat t

/-- Left-pads a decimal string with zeros to the given width. -/
def pad_zeros (s : String) (w : ℕ) : String :=
  String.mk (List.replicate (w - s.length) '0') ++ s

/-- Models the Python fixed-point format `f"{q:.6f}"`: six digits after the
decimal point (rounding to the nearest multiple of 10^-6). -/
def fmt6 (q : ℚ) : String :=
  let n := round (q * 1000000)
  let sgn := if n < 0 then "-" else ""
  let m := n.natAbs
  sgn ++ toString (m / 1000000) ++ "." ++ pad_zeros (toString (m % 1000000)) 6

/-- Models Python `str()` applied to a numeric configuration parameter. -/
def qstr (q : ℚ) : String := toString q

/-- Node line of the `[Nodes]` block (mesh_utilities.py line 288): the printed
id is the 0-based enumeration index plus one. -/
def node_line (i : ℕ) (p : ℚ × ℚ × ℚ) : String :=
  toString (i + 1) ++ "  " ++ fmt6 p.1 ++ "  " ++ fmt6 p.2.1 ++ "  " ++ fmt6 p.2.2

/-- The `[Nodes]` block body of `write_ansys_mesh`. -/
def nodes_block (m : MockMesh) : List String :=
  m.nodes.enum.map (fun p => node_line p.1 p.2)

/-- Element line of the `[Elements]` block (mesh_utilities.py line 294). -/
def element_line (i : ℕ) (e : MockElement) : String :=
  toString (i + 1) ++ "  brick  " ++ e.region

/-- The `[Elements]` block body of `write_ansys_mesh`. -/
def elements_block (m : MockMesh) : List String :=
  m.elements.enum.map (fun p => element_line p.1 p.2)

/-- Boundary-condition line of the `[BoundaryConditions]` block
(mesh_utilities.py line 300): only the set name and the member count are
written, never the node ids. -/
def bc_line (b : String × List ℕ) : String :=
  b.1 ++ ": " ++ toString b.2.length ++ " nodes"

/-- The `[BoundaryConditions]` block body of `write_ansys_mesh`. -/
def bc_block (m : MockMesh) : List String := m.bc.map bc_line

/-- The `NumNodeBC` header value (mesh_utilities.py line 281):
`sum(len(bc[1]) for bc in mesh.bc)`. -/
def num_node_bc (m : MockMesh) : ℕ := (m.bc.map (fun b => b.2.length)).sum

/-- Header of the serialized mesh file (mesh_utilities.py lines 268-284). -/
def mesh_header (m : MockMesh) : String :=
  "# ANSYS Mesh File\n# Generated by TV Mount Optimizer\n# Nodes: " ++
    toString m.nodes.length ++
  "\n# Elements: " ++ toString m.elements.length ++
  "\n# Boundary Conditions: " ++ toString m.bc.length ++
  "\n\n[Info]\nVersion 1\nDimension 3\nNumNodes " ++ toString m.nodes.length ++
  "\nNum3DElements " ++ toString m.elements.length ++
  "\nNum2DElements 0\nNum1DElements 0\nNumNodeBC " ++ toString (num_node_bc m) ++
  "\n\n[Nodes]\n"

/-- Mirrors `write_ansys_mesh` (mesh_utilities.py lines 263-305), as the
content string written to the file. -/
def write_ansys_mesh (m : MockMesh) : String :=
  mesh_header m ++
  str_concat ((nodes_block m).map (fun s => s ++ "\n")) ++
  "\n[Elements]\n" ++
  str_concat ((elements_block m).map (fun s => s ++ "\n")) ++
  "\n[BoundaryConditions]\n" ++
  str_concat ((bc_block m).map (fun s => s ++ "\n"))

/-- The Cartesian force components computed by
`TVMountOptimizer._generate_single_xml_config` (tv_mount_optimizer.py lines
490-492): `force_per_point` (= `load_case.force_magnitude`) multiplied by
each component of the direction vector. -/
def force_components (lc : LoadCase) : ℚ × ℚ × ℚ :=
  (lc.force_magnitude * lc.force_direction.1,
   lc.force_magnitude * lc.force_direction.2.1,
   lc.force_magnitude * lc.force_direction.2.2)

/-- Force entry appended for mounting point `i` by the XML loop
(tv_mount_optimizer.py lines 487-499). -/
def force_block (lc : LoadCase) (i : ℕ) : String :=
  "\n          <force name=\"" ++ lc.name ++ "_force_" ++ toString (i + 1) ++
  "\">\n            <comp dof=\"x\" value=\"" ++ fmt6 (force_components lc).1 ++
  "\"/>\n            <comp dof=\"y\" value=\"" ++ fmt6 (force_components lc).2.1 ++
  "\"/>\n            <comp dof=\"z\" value=\"" ++ fmt6 (force_components lc).2.2 ++
  "\"/>\n          </force>"

/-- Document prefix built before the force loop of
`_generate_single_xml_config` (tv_mount_optimizer.py lines 440-485),
condensed to the interpolated data: every interpolation is a pure function
of the load case. -/
def xml_head (lc : LoadCase) : String :=
  "<?xml version=\"1.0\" encoding=\"UTF-8\"?>\n\n<cfsSimulation>\n  <!-- " ++
  lc.description ++ " -->\n  <!-- Load Case: " ++ lc.name ++
  " -->\n  <!-- Safety Factor: " ++ qstr lc.safety_factor ++
  " -->\n  <fileFormats>\n    <output>\n      <hdf5 directory=\"results_" ++
  lc.name ++ "\"/>\n    </output>\n  </fileFormats>\n" ++
  "  <bcsAndLoads>\n    <fix name=\"back_support\"/>\n"

/-- Document suffix built after the force loop of
`_generate_single_xml_config` (tv_mount_optimizer.py lines 501-570),
condensed to the interpolated optimization parameters. -/
def xml_tail (opt : OptimizationConfig) : String :=
  "\n  </bcsAndLoads>\n  <optimization>\n    <costFunction type=\"compliance\" task=\"minimize\">\n" ++
  "      <stopping value=\"" ++ qstr opt.convergence_tolerance ++
  "\" type=\"designChange\"/>\n    </costFunction>\n    <constraint type=\"volume\" value=\"" ++
  qstr opt.volume_fraction ++
  "\" bound=\"upperBound\"/>\n    <optimizer type=\"optimalityCondition\" maxIterations=\"" ++
  toString opt.max_iterations ++
  "\">\n    </optimizer>\n    <ersatzMaterial region=\"mech\" material=\"mechanic\" method=\"simp\">\n" ++
  "      <filter value=\"" ++ qstr opt.filter_radius ++
  "\" type=\"density\"/>\n      <design name=\"density\" initial=\"" ++
  qstr opt.volume_fraction ++
  "\"/>\n      <transferFunction type=\"simp\" param=\"" ++
  qstr opt.penalty_parameter ++
  "\"/>\n    </ersatzMaterial>\n  </optimization>\n</cfsSimulation>"

/-- Mirrors `TVMountOptimizer._generate_single_xml_config` (tv_mount_optimizer.py
lines 431-575): the prefix, then a loop over the mounting-point indices
appending one force entry each, then the suffix.  The content depends only
on the load case, the geometry's mounting-point count and the optimization
parameters — there is no other state. -/
def generate_single_xml_config (lc : LoadCase) (g : GeometryConfig)
    (opt : OptimizationConfig) : String :=
  ((List.range g.mounting_points.length).foldl
    (fun acc i => acc ++ force_block lc i) (xml_head lc)) ++ xml_tail opt

/-- Definition following the specification's words (section 4.5): the force
entry of each mounting point carries Cartesian components equal to
`force_magnitude` multiplied componentwise by the direction vector. -/
def spec_force_components (lc : LoadCase) : ℚ × ℚ × ℚ :=
  (lc.force_magnitude * lc.force_direction.1,
   lc.force_magnitude * lc.force_direction.2.1,
   lc.force_magnitude * lc.force_direction.2.2)

/-- Sample load case used by witnesses: the default static TV-weight case
(50 kg · 9.81 / 4 = 981/8 N downward, tv_mount_optimizer.py lines 179-186). -/
def sample_load_case : LoadCase :=
  { name := "static_tv_weight", load_type := LoadType.STATIC,
    force_magnitude := 981/8, force_direction := (0, -1, 0),
    safety_factor := 5/2, description := "Static load from TV weight" }

/-- Sample one-node, one-element mesh used by the serializer witness. -/
def sample_mesh : MockMesh :=
  { nodes := [((5 : ℚ), 4, 1/8)],
    elements := [{ center := (5, 4, 3), region := "mech" }],
    bc := [("back_support", [0])] }

/-- Downscaled geometry used to exercise `generate_adaptive_mesh` concretely:
the derived resolution is 2 x 2 x 2, so dz = depth / nz = 1/20, while the
configured wall/mount thickness 3/100 is not an integer multiple of 1/20. -/
def small_geometry : GeometryConfig :=
  { width := 1/10, height := 1/10, depth := 1/10,
    wall_thickness := 3/100, mount_thickness := 3/100,
    mounting_points := [(1/20, 1/20)], mounting_hole_radius := 1/5 }

/-- Length of a flatMap over an initial segment of the naturals when every
block has the same length. -/
theorem length_range_flatMap {α : Type} (f : ℕ → List α) (L : ℕ)
    (hf : ∀ i, (f i).length = L) (n : ℕ) :
    ((List.range n).flatMap f).length = n * L := by
  induction n with
  | zero => simp
  | succ m ih =>
      rw [List.range_succ, List.flatMap_append, List.length_append, ih]
      simp [hf, Nat.succ_mul]

/-- Indexing into a flatMap over an initial segment of the naturals with
constant-length blocks. -/
theorem getElem?_range_flatMap {α : Type} (f : ℕ → List α) (L : ℕ)
    (hf : ∀ i, (f i).length = L) (n q r : ℕ) (hq : q < n) (hr : r < L) :
    ((List.range n).flatMap f)[q * L + r]? = (f q)[r]? := by
  induction n with
  | zero => omega
  | succ m ih =>
      rw [List.range_succ, List.flatMap_append]
      rcases Nat.lt_succ_iff_lt_or_eq.mp hq with h | h
      · have hlen : q * L + r < ((List.range m).flatMap f).length := by
          rw [length_range_flatMap f L hf m]
          calc q * L + r < q * L + L := Nat.add_lt_add_left hr _
          _ = (q + 1) * L := (Nat.succ_mul q L).symm
          _ ≤ m * L := Nat.mul_le_mul_right L h
        rw [List.getElem?_append_left hlen]
        exact ih h
      · subst h
        have hlen : ((List.range q).flatMap f).length ≤ q * L + r := by
          rw [length_range_flatMap f L hf q]
          exact Nat.le_add_right _ _
        rw [List.getElem?_append_right hlen, length_range_flatMap f L hf q,
          Nat.add_sub_cancel_left]
        simp

/-- Block length of one j-row of the node lattice. -/
theorem node_row_length (nx : ℕ) (g : ℕ → ℚ × ℚ × ℚ) :
    ((List.range (nx + 1)).map g).length = nx + 1 := by
  simp

/-- Node lattice order: the node with lattice coordinates (i, j, k) sits at
flat index i + j(nx+1) + k(nx+1)(ny+1) and carries coordinates
(i dx, j dy, k dz). -/
theorem generate_nodes_getElem (nx ny nz : ℕ) (w h d : ℚ) (i j k : ℕ)
    (hi : i ≤ nx) (hj : j ≤ ny) (hk : k ≤ nz) :
    (generate_nodes nx ny nz w h d)[i + j * (nx + 1) + k * ((nx + 1) * (ny + 1))]? =
      some ((i : ℚ) * (w / (nx : ℚ)), (j : ℚ) * (h / (ny : ℚ)),
        (k : ℚ) * (d / (nz : ℚ))) := by
  show ((List.range (nz + 1)).flatMap (fun k2 : ℕ =>
    (List.range (ny + 1)).flatMap (fun j2 : ℕ =>
      (List.range (nx + 1)).map (fun i2 : ℕ =>
        ((i2 : ℚ) * (w / (nx : ℚ)), (j2 : ℚ) * (h / (ny : ℚ)),
          (k2 : ℚ) * (d / (nz : ℚ)))))))[_]? = _
  have hidx : i + j * (nx + 1) + k * ((nx + 1) * (ny + 1)) =
      k * ((ny + 1) * (nx + 1)) + (j * (nx + 1) + i) := by ring
  rw [hidx]
  rw [getElem?_range_flatMap _ ((ny + 1) * (nx + 1))
    (fun k2 => length_range_flatMap _ (nx + 1) (fun j2 => node_row_length nx _) (ny + 1))
    (nz + 1) k (j * (nx + 1) + i) (Nat.lt_succ_of_le hk) (by nlinarith)]
  rw [getElem?_range_flatMap _ (nx + 1) (fun j2 => node_row_length nx _)
    (ny + 1) j i (Nat.lt_succ_of_le hj) (Nat.lt_succ_of_le hi)]
  simp [List.getElem?_range (Nat.lt_succ_of_le hi)]

/-- C2: for every resolution nx, ny, nz ≥ 1 and positive domain dimensions,
the generated grid has exactly (nx+1)(ny+1)(nz+1) nodes and nx·ny·nz
elements, and the nodes are laid out in k-outer, j-middle, i-inner lattice
order: the node with id i + j(nx+1) + k(nx+1)(ny+1) has coordinates
(i·dx, j·dy, k·dz) with dx = width/nx, dy = height/ny, dz = depth/nz. -/
theorem grid_counts_and_lattice_order (nx ny nz : ℕ) (w h d : ℚ)
    (hx : 1 ≤ nx) (hy : 1 ≤ ny) (hz : 1 ≤ nz)
    (hw : 0 < w) (hh : 0 < h) (hd : 0 < d) :
    (generate_nodes nx ny nz w h d).length = (nx + 1) * (ny + 1) * (nz + 1) ∧
    (generate_elements nx ny nz).length = nx * ny * nz ∧
    (∀ i j k, i ≤ nx → j ≤ ny → k ≤ nz →
      (generate_nodes nx ny nz w h d)[i + j * (nx + 1) + k * ((nx + 1) * (ny + 1))]? =
        some ((i : ℚ) * (w / (nx : ℚ)), (j : ℚ) * (h / (ny : ℚ)),
          (k : ℚ) * (d / (nz : ℚ)))) := by
  refine ⟨?_, ?_, fun i j k hi hj hk => generate_nodes_getElem nx ny nz w h d i j k hi hj hk⟩
  · show ((List.range (nz + 1)).flatMap _).length = _
    rw [length_range_flatMap _ ((ny + 1) * (nx + 1))
      (fun k2 => length_range_flatMap _ (nx + 1) (fun j2 => node_row_length nx _) (ny + 1))
      (nz + 1)]
    ring
  · show ((List.range nz).flatMap _).length = _
    rw [length_range_flatMap _ (ny * nx)
      (fun k2 => length_range_flatMap _ nx (fun j2 => by simp) ny) nz]
    ring

/-- Witness for C2 at resolution (2,1,1) on the 5 x 3 x 2 domain. -/
theorem grid_counts_and_lattice_order_witness :
    (generate_nodes 2 1 1 5 3 2).length = (2 + 1) * (1 + 1) * (1 + 1) ∧
    (generate_nodes 2 1 1 5 3 2)[1 + 1 * (2 + 1) + 1 * ((2 + 1) * (1 + 1))]? =
      some ((1 : ℚ) * (5 / (2 : ℚ)), (1 : ℚ) * (3 / (1 : ℚ)), (1 : ℚ) * (2 / (1 : ℚ))) :=
  ⟨(grid_counts_and_lattice_order 2 1 1 5 3 2 (by decide) (by decide) (by decide)
      (by decide) (by decide) (by decide)).1,
   (grid_counts_and_lattice_order 2 1 1 5 3 2 (by decide) (by decide) (by decide)
      (by decide) (by decide) (by decide)).2.2 1 1 1 (by decide) (by decide) (by decide)⟩

/-- Element lattice order with the hardcoded reference barycenters: the element
with cell indices (i, j, k) sits at flat index i + j·nx + k·nx·ny and its
center is computed from the fixed 10 x 8 x 6 reference dimensions (this is
the amended form of claim C3; the domain arguments play no role). -/
theorem generate_elements_getElem (nx ny nz i j k : ℕ)
    (hi : i < nx) (hj : j < ny) (hk : k < nz) :
    (generate_elements nx ny nz)[i + j * nx + k * (nx * ny)]? =
      some { center := (((i : ℚ) + 1/2) * (10 / (nx : ℚ)),
                        ((j : ℚ) + 1/2) * (8 / (ny : ℚ)),
                        ((k : ℚ) + 1/2) * (6 / (nz : ℚ))),
             region := "mech" } := by
  show ((List.range nz).flatMap (fun k2 : ℕ =>
    (List.range ny).flatMap (fun j2 : ℕ =>
      (List.range nx).map (fun i2 : ℕ =>
        ({ center := (((i2 : ℚ) + 1/2) * (10 / (nx : ℚ)),
                      ((j2 : ℚ) + 1/2) * (8 / (ny : ℚ)),
                      ((k2 : ℚ) + 1/2) * (6 / (nz : ℚ))),
           region := "mech" } : MockElement)))))[_]? = _
  have hidx : i + j * nx + k * (nx * ny) = k * (ny * nx) + (j * nx + i) := by ring
  rw [hidx]
  rw [getElem?_range_flatMap _ (ny * nx)
    (fun k2 => length_range_flatMap _ nx (fun j2 => by simp) ny)
    nz k (j * nx + i) hk (by nlinarith)]
  rw [getElem?_range_flatMap _ nx (fun j2 => by simp) ny j i hj hi]
  simp [List.getElem?_range hi]

/-- Witness for the amended C3 theorem at resolution (2, 2, 1). -/
theorem generate_elements_getElem_witness :
    (generate_elements 2 2 1)[1 + 1 * 2 + 0 * (2 * 2)]? =
      some { center := (((1 : ℚ) + 1/2) * (10 / (2 : ℚ)),
                        ((1 : ℚ) + 1/2) * (8 / (2 : ℚ)),
                        ((0 : ℚ) + 1/2) * (6 / (1 : ℚ))),
             region := "mech" } :=
  generate_elements_getElem 2 2 1 1 1 0 (by decide) (by decide) (by decide)

/-- Counterexample to C3 as stated: on the domain 20 x 8 x 6 with resolution
(1, 1, 1) the single element's barycenter is (5, 4, 3) — derived from the
hardcoded 10 x 8 x 6 reference domain — and not the claimed
((0+0.5)·20/1, (0+0.5)·8/1, (0+0.5)·6/1) = (10, 4, 3). -/
theorem element_barycenter_domain_counterexample :
    (create_3d_mesh 1 1 1 20 8 6).toOption.map
      (fun m => m.elements.map MockElement.center) = some [(5, 4, 3)] ∧
    ((5 : ℚ), (4 : ℚ), (3 : ℚ)) ≠
      (((0 : ℚ) + 1/2) * (20 / (1 : ℚ)), ((0 : ℚ) + 1/2) * (8 / (1 : ℚ)),
        ((0 : ℚ) + 1/2) * (6 / (1 : ℚ))) := by
  constructor
  · decide
  · decide

/-- C4 amended: grid generation performs no input validation at all.  For any
resolutions nx, ny, nz ≥ 1 a complete grid is returned even when domain
dimensions are zero or negative, and a zero resolution component fails with
Python's ZeroDivisionError from the cell-size division, not with an
`InvalidResolutionError` (neither `InvalidResolutionError` nor
`InvalidDomainError` exists in the code). -/
theorem create_structured_mesh_no_validation (nx ny nz : ℕ) (w h d : ℚ)
    (hx : 1 ≤ nx) (hy : 1 ≤ ny) (hz : 1 ≤ nz) :
    create_structured_mesh nx ny nz w h d =
      Except.ok { nodes := generate_nodes nx ny nz w h d,
                  elements := generate_elements nx ny nz,
                  bc := [] } ∧
    (∀ w2 h2 d2 : ℚ, create_structured_mesh 0 ny nz w2 h2 d2 =
      Except.error "ZeroDivisionError") := by
  constructor
  · unfold create_structured_mesh
    rw [if_neg (by omega : ¬ (nx = 0 ∨ ny = 0 ∨ nz = 0))]
  · intro w2 h2 d2
    unfold create_structured_mesh
    rw [if_pos (Or.inl rfl)]

/-- Witness for the amended C4 theorem: a negative width is accepted and a
full 8-node grid is returned; a zero nx yields the division error. -/
theorem create_structured_mesh_no_validation_witness :
    create_structured_mesh 1 1 1 (-3) 8 6 =
      Except.ok { nodes := generate_nodes 1 1 1 (-3) 8 6,
                  elements := generate_elements 1 1 1,
                  bc := [] } ∧
    create_structured_mesh 0 1 1 10 8 6 = Except.error "ZeroDivisionError" :=
  ⟨(create_structured_mesh_no_validation 1 1 1 (-3) 8 6
      (by decide) (by decide) (by decide)).1,
   (create_structured_mesh_no_validation 1 1 1 (-3) 8 6
      (by decide) (by decide) (by decide)).2 10 8 6⟩

/-- Counterexample to C4 as stated: `create_3d_mesh` called with width −1 ≤ 0
returns a complete 8-node, 1-element grid instead of failing with
`InvalidDomainError`, and a zero resolution raises a plain division error. -/
theorem grid_validation_counterexample :
    (create_3d_mesh 1 1 1 (-1) 1 1).toOption.map
      (fun m => (m.nodes.length, m.elements.length)) = some (8, 1) ∧
    create_3d_mesh 0 1 1 10 8 6 = Except.error "ZeroDivisionError" := by
  constructor
  · decide
  · rfl

/-- Every element produced by the generator starts with the constructor
default region `"mech"`. -/
theorem mem_generate_elements_region (nx ny nz : ℕ) (e : MockElement)
    (he : e ∈ generate_elements nx ny nz) : e.region = "mech" := by
  unfold generate_elements at he
  simp only [List.mem_flatMap, List.mem_map, List.mem_range] at he
  obtain ⟨k, -, j, -, i, -, rfl⟩ := he
  rfl

/-- C1: after classification every generated element carries exactly one tag
from {"solid", "void", "mech"}; the tag is "solid" exactly when a solid
predicate matches, "void" exactly when no solid predicate but a void
predicate matches (solid predicates are tested first, first match wins), and
an element matching no predicate keeps the default optimizable tag "mech". -/
theorem region_tags_partition (nx ny nz : ℕ) (e : MockElement)
    (he : e ∈ generate_elements nx ny nz) :
    ((assign_region e).region = "solid" ∨ (assign_region e).region = "void" ∨
      (assign_region e).region = "mech") ∧
    ((assign_region e).region = "solid" ↔ solid_condition e.center) ∧
    ((assign_region e).region = "void" ↔
      (¬ solid_condition e.center ∧ void_condition e.center)) ∧
    ((assign_region e).region = "mech" ↔
      (¬ solid_condition e.center ∧ ¬ void_condition e.center)) := by
  have hreg : e.region = "mech" := mem_generate_elements_region nx ny nz e he
  unfold assign_region
  by_cases hs : solid_condition e.center
  · simp [hs]
  · by_cases hv : void_condition e.center
    · simp [hs, hv]
    · simp [hs, hv, hreg]

/-- Witness for C1 at the single element of the (1,1,1) grid. -/
theorem region_tags_partition_witness :
    ((assign_region ⟨(5, 4, 3), "mech"⟩).region = "solid" ∨
      (assign_region ⟨(5, 4, 3), "mech"⟩).region = "void" ∨
      (assign_region ⟨(5, 4, 3), "mech"⟩).region = "mech") ∧
    ((assign_region ⟨(5, 4, 3), "mech"⟩).region = "solid" ↔
      solid_condition ((5 : ℚ), (4 : ℚ), (3 : ℚ))) ∧
    ((assign_region ⟨(5, 4, 3), "mech"⟩).region = "void" ↔
      (¬ solid_condition ((5 : ℚ), (4 : ℚ), (3 : ℚ)) ∧
        void_condition ((5 : ℚ), (4 : ℚ), (3 : ℚ)))) ∧
    ((assign_region ⟨(5, 4, 3), "mech"⟩).region = "mech" ↔
      (¬ solid_condition ((5 : ℚ), (4 : ℚ), (3 : ℚ)) ∧
        ¬ void_condition ((5 : ℚ), (4 : ℚ), (3 : ℚ)))) :=
  region_tags_partition 1 1 1 ⟨(5, 4, 3), "mech"⟩ (by decide)

/-- C6: the wall-layer interval tests are strict on both bounds.  A barycenter
with x exactly on the boundary plane x = 0.4·W = 4 (or x = 0.6·W = 6)
satisfies neither the adjoining solid predicate `is_in_wall_plate` nor the
adjoining void predicate `is_in_wall_void`, and as long as the point is not
inside the front TV layer the element keeps the default optimizable tag. -/
theorem boundary_plane_exclusivity (y z : ℚ) (hz : z ≤ 23/4) :
    ¬ is_in_wall_plate 4 y z ∧ ¬ is_in_wall_void 4 y z ∧
    ¬ is_in_wall_plate 6 y z ∧ ¬ is_in_wall_void 6 y z ∧
    (assign_region { center := (4, y, z), region := "mech" }).region = "mech" ∧
    (assign_region { center := (6, y, z), region := "mech" }).region = "mech" := by
  have hwp4 : ¬ is_in_wall_plate 4 y z := by
    intro h
    unfold is_in_wall_plate at h
    exact absurd h.1 (by norm_num)
  have hwv4 : ¬ is_in_wall_void 4 y z := by
    intro h
    unfold is_in_wall_void at h
    rcases h.1 with h1 | h2
    · exact absurd h1.2 (by norm_num)
    · exact absurd h2.1 (by norm_num)
  have hwp6 : ¬ is_in_wall_plate 6 y z := by
    intro h
    unfold is_in_wall_plate at h
    exact absurd h.2.1 (by norm_num)
  have hwv6 : ¬ is_in_wall_void 6 y z := by
    intro h
    unfold is_in_wall_void at h
    rcases h.1 with h1 | h2
    · exact absurd h1.2 (by norm_num)
    · exact absurd h2.1 (by norm_num)
  have htvs : ∀ x : ℚ, ¬ is_in_tv_mounting_solid x y z := by
    intro x h
    unfold is_in_tv_mounting_solid TV_SURFACE_Z_MIN at h
    linarith [h.1.1]
  have htvv : ∀ x : ℚ, ¬ is_in_tv_mounting_void x y z := by
    intro x h
    unfold is_in_tv_mounting_void TV_SURFACE_Z_MIN at h
    linarith [h.1.1]
  have hs4 : ¬ solid_condition ((4 : ℚ), y, z) := by
    intro h
    unfold solid_condition at h
    rcases h with h | h
    · exact hwp4 h
    · exact htvs 4 h
  have hv4 : ¬ void_condition ((4 : ℚ), y, z) := by
    intro h
    unfold void_condition at h
    rcases h with h | h
    · exact hwv4 h
    · exact htvv 4 h
  have hs6 : ¬ solid_condition ((6 : ℚ), y, z) := by
    intro h
    unfold solid_condition at h
    rcases h with h | h
    · exact hwp6 h
    · exact htvs 6 h
  have hv6 : ¬ void_condition ((6 : ℚ), y, z) := by
    intro h
    unfold void_condition at h
    rcases h with h | h
    · exact hwv6 h
    · exact htvv 6 h
  refine ⟨hwp4, hwv4, hwp6, hwv6, ?_, ?_⟩
  · unfold assign_region
    rw [if_neg hs4, if_neg hv4]
  · unfold assign_region
    rw [if_neg hs6, if_neg hv6]

/-- Witness for C6 at y = 2, z = 0.1 (a point inside the wall z-layer). -/
theorem boundary_plane_exclusivity_witness :
    ¬ is_in_wall_plate 4 2 (1/10) ∧ ¬ is_in_wall_void 4 2 (1/10) ∧
    ¬ is_in_wall_plate 6 2 (1/10) ∧ ¬ is_in_wall_void 6 2 (1/10) ∧
    (assign_region { center := (4, 2, 1/10), region := "mech" }).region = "mech" ∧
    (assign_region { center := (6, 2, 1/10), region := "mech" }).region = "mech" :=
  boundary_plane_exclusivity 2 (1/10) (by decide)

/-- C7: for every node inside the mount z-layer and every mounting point with
radius r > 0, the node is in that mounting point's force set iff its squared
planar distance to the center is at most r² (inclusive).  Consequently a
node exactly at the center always belongs, a node at squared distance
exactly r² belongs, and a node strictly farther than r never belongs. -/
theorem force_node_selection (g : GeometryConfig) (nodes : List (ℚ × ℚ × ℚ))
    (c : ℚ × ℚ) (idx : ℕ) (x y z : ℚ)
    (hn : nodes[idx]? = some (x, y, z)) (hr : 0 < g.mounting_hole_radius)
    (hz1 : g.depth - g.mount_thickness < z) (hz2 : z < g.depth) :
    (idx ∈ opt_force_set g nodes c ↔
      (x - c.1) * (x - c.1) + (y - c.2) * (y - c.2) ≤
        g.mounting_hole_radius * g.mounting_hole_radius) ∧
    ((x, y) = c → idx ∈ opt_force_set g nodes c) ∧
    ((x - c.1) * (x - c.1) + (y - c.2) * (y - c.2) =
        g.mounting_hole_radius * g.mounting_hole_radius →
      idx ∈ opt_force_set g nodes c) ∧
    (g.mounting_hole_radius * g.mounting_hole_radius <
        (x - c.1) * (x - c.1) + (y - c.2) * (y - c.2) →
      idx ∉ opt_force_set g nodes c) := by
  have hmem : (idx, (x, y, z)) ∈ nodes.enum :=
    List.mk_mem_enum_iff_getElem?.mpr hn
  have hiff : idx ∈ opt_force_set g nodes c ↔
      (x - c.1) * (x - c.1) + (y - c.2) * (y - c.2) ≤
        g.mounting_hole_radius * g.mounting_hole_radius := by
    constructor
    · intro hin
      unfold opt_force_set at hin
      rcases List.mem_map.mp hin with ⟨p, hp, hfst⟩
      rcases List.mem_filter.mp hp with ⟨hpe, hcond⟩
      obtain ⟨pi, px, py, pz⟩ := p
      simp only at hfst
      subst hfst
      have hsome : nodes[pi]? = some (px, py, pz) :=
        List.mk_mem_enum_iff_getElem?.mp hpe
      rw [hn] at hsome
      have he := Option.some.inj hsome
      have hpx : x = px := congrArg Prod.fst he
      have hpy : y = py := congrArg (fun q : ℚ × ℚ × ℚ => q.2.1) he
      rw [decide_eq_true_eq] at hcond
      rw [hpx, hpy]
      exact hcond.2
    · intro hd
      unfold opt_force_set
      apply List.mem_map.mpr
      refine ⟨(idx, (x, y, z)), List.mem_filter.mpr ⟨hmem, ?_⟩, rfl⟩
      rw [decide_eq_true_eq]
      exact ⟨⟨hz1, hz2⟩, hd⟩
  refine ⟨hiff, ?_, fun hEq => hiff.mpr (le_of_eq hEq),
    fun hgt hin => absurd (hiff.mp hin) (not_le.mpr hgt)⟩
  intro hc
  apply hiff.mpr
  obtain ⟨c1, c2⟩ := c
  have hx : x = c1 := congrArg Prod.fst hc
  have hy : y = c2 := congrArg Prod.snd hc
  subst hx; subst hy
  nlinarith [mul_self_nonneg g.mounting_hole_radius]

/-- Witness for C7: the single node (2, 2, 5.9) sits in the mount layer of the
default geometry and exactly at the mounting point (2, 2). -/
theorem force_node_selection_witness :
    (0 ∈ opt_force_set {} [((2 : ℚ), 2, 59/10)] (2, 2) ↔
      ((2 : ℚ) - 2) * ((2 : ℚ) - 2) + ((2 : ℚ) - 2) * ((2 : ℚ) - 2) ≤
        GeometryConfig.mounting_hole_radius {} * GeometryConfig.mounting_hole_radius {}) ∧
    (((2 : ℚ), (2 : ℚ)) = ((2 : ℚ), (2 : ℚ)) →
      0 ∈ opt_force_set {} [((2 : ℚ), 2, 59/10)] (2, 2)) ∧
    (((2 : ℚ) - 2) * ((2 : ℚ) - 2) + ((2 : ℚ) - 2) * ((2 : ℚ) - 2) =
        GeometryConfig.mounting_hole_radius {} * GeometryConfig.mounting_hole_radius {} →
      0 ∈ opt_force_set {} [((2 : ℚ), 2, 59/10)] (2, 2)) ∧
    (GeometryConfig.mounting_hole_radius {} * GeometryConfig.mounting_hole_radius {} <
        ((2 : ℚ) - 2) * ((2 : ℚ) - 2) + ((2 : ℚ) - 2) * ((2 : ℚ) - 2) →
      0 ∉ opt_force_set {} [((2 : ℚ), 2, 59/10)] (2, 2)) :=
  force_node_selection {} [((2 : ℚ), 2, 59/10)] (2, 2) 0 2 2 (59/10)
    (by rfl) (by decide) (by decide) (by decide)

/-- Strings with a common appended suffix are equal only if the prefixes are. -/
theorem string_append_right_cancel (a b s : String) (h : a ++ s = b ++ s) :
    a = b := by
  have hd : a.data ++ s.data = b.data ++ s.data := by
    have h1 : (a ++ s).data = a.data ++ s.data := rfl
    have h2 : (b ++ s).data = b.data ++ s.data := rfl
    rw [← h1, ← h2, h]
  have hab : a.data = b.data := List.append_cancel_right hd
  cases a
  cases b
  exact congrArg String.mk hab

/-- C8: for any two distinctly named load cases and a single mounting point,
the boundary-condition list contains a force set for each, with literally
identical membership (the geometric test does not read the load case) but
distinct names of the form `{load_case_name}_force_{index}`. -/
theorem force_sets_share_membership_distinct_names
    (g : GeometryConfig) (nodes : List (ℚ × ℚ × ℚ)) (lcs : List String)
    (n1 n2 : String) (h1 : n1 ∈ lcs) (h2 : n2 ∈ lcs) (hne : n1 ≠ n2)
    (j : ℕ) (c : ℚ × ℚ) (hj : g.mounting_points[j]? = some c) :
    ((n1 ++ "_force_" ++ toString (j + 1), opt_force_set g nodes c) ∈
      define_boundary_conditions g lcs nodes) ∧
    ((n2 ++ "_force_" ++ toString (j + 1), opt_force_set g nodes c) ∈
      define_boundary_conditions g lcs nodes) ∧
    n1 ++ "_force_" ++ toString (j + 1) ≠ n2 ++ "_force_" ++ toString (j + 1) := by
  have hjm : (j, c) ∈ g.mounting_points.enum :=
    List.mk_mem_enum_iff_getElem?.mpr hj
  have hmem : ∀ nm ∈ lcs,
      (nm ++ "_force_" ++ toString (j + 1), opt_force_set g nodes c) ∈
        define_boundary_conditions g lcs nodes := by
    intro nm hnm
    unfold define_boundary_conditions
    apply List.mem_cons_of_mem
    apply List.mem_flatMap.mpr
    exact ⟨nm, hnm, List.mem_map.mpr ⟨(j, c), hjm, rfl⟩⟩
  refine ⟨hmem n1 h1, hmem n2 h2, fun he => hne ?_⟩
  exact string_append_right_cancel n1 n2 "_force_"
    (string_append_right_cancel (n1 ++ "_force_") (n2 ++ "_force_")
      (toString (j + 1)) he)

/-- Witness for C8 with load cases "static_tv_weight" and "seismic_horizontal"
sharing the first default mounting point. -/
theorem force_sets_share_membership_distinct_names_witness :
    (("static_tv_weight" ++ "_force_" ++ toString (0 + 1),
        opt_force_set {} [] (2, 2)) ∈
      define_boundary_conditions {} ["static_tv_weight", "seismic_horizontal"] []) ∧
    (("seismic_horizontal" ++ "_force_" ++ toString (0 + 1),
        opt_force_set {} [] (2, 2)) ∈
      define_boundary_conditions {} ["static_tv_weight", "seismic_horizontal"] []) ∧
    "static_tv_weight" ++ "_force_" ++ toString (0 + 1) ≠
      "seismic_horizontal" ++ "_force_" ++ toString (0 + 1) :=
  force_sets_share_membership_distinct_names {} []
    ["static_tv_weight", "seismic_horizontal"] "static_tv_weight"
    "seismic_horizontal" (by decide) (by decide) (by decide) 0 (2, 2) (by rfl)

/-- Two strings with equal character data are equal. -/
theorem string_data_eq (a b : String) (h : a.data = b.data) : a = b := by
  cases a
  cases b
  exact congrArg String.mk h

/-- String concatenation is associative. -/
theorem string_append_assoc (a b c : String) : a ++ b ++ c = a ++ (b ++ c) :=
  string_data_eq _ _ (List.append_assoc a.data b.data c.data)

/-- Appending the empty string is the identity. -/
theorem string_append_empty (s : String) : s ++ "" = s :=
  string_data_eq _ _ (List.append_nil s.data)

/-- Accumulating string blocks with a left fold equals appending their
concatenation: this is the shape of the Python `xml_content += ...` loop. -/
theorem foldl_append_blocks (gf : ℕ → String) (l : List ℕ) :
    ∀ init : String,
      l.foldl (fun acc i => acc ++ gf i) init = init ++ str_concat (l.map gf) := by
  induction l with
  | nil =>
      intro init
      simp only [List.foldl_nil, List.map_nil, str_concat]
      exact (string_append_empty init).symm
  | cons a t ih =>
      intro init
      simp only [List.foldl_cons, List.map_cons, str_concat]
      rw [ih (init ++ gf a), string_append_assoc]

/-- C9: the problem-definition compiler is a pure function of the load case,
the geometry and the optimization parameters — equal inputs give
byte-for-byte equal documents — and the compiled document is the head,
followed by exactly one force entry per mounting point carrying the
Cartesian components `force_magnitude * direction`, followed by the tail. -/
theorem xml_compiler_deterministic (lc lc2 : LoadCase) (g g2 : GeometryConfig)
    (opt opt2 : OptimizationConfig) (heq : lc = lc2 ∧ g = g2 ∧ opt = opt2) :
    generate_single_xml_config lc g opt = generate_single_xml_config lc2 g2 opt2 ∧
    generate_single_xml_config lc g opt =
      xml_head lc ++
        str_concat ((List.range g.mounting_points.length).map (force_block lc)) ++
        xml_tail opt ∧
    (∀ i, force_block lc i =
      "\n          <force name=\"" ++ lc.name ++ "_force_" ++ toString (i + 1) ++
      "\">\n            <comp dof=\"x\" value=\"" ++
      fmt6 (spec_force_components lc).1 ++
      "\"/>\n            <comp dof=\"y\" value=\"" ++
      fmt6 (spec_force_components lc).2.1 ++
      "\"/>\n            <comp dof=\"z\" value=\"" ++
      fmt6 (spec_force_components lc).2.2 ++
      "\"/>\n          </force>") := by
  obtain ⟨rfl, rfl, rfl⟩ := heq
  refine ⟨rfl, ?_, fun i => rfl⟩
  unfold generate_single_xml_config
  rw [foldl_append_blocks (force_block lc) (List.range g.mounting_points.length)
    (xml_head lc)]

/-- Witness for C9 at the sample static load case with default geometry and
optimization parameters. -/
theorem xml_compiler_deterministic_witness :
    generate_single_xml_config sample_load_case {} {} =
      generate_single_xml_config sample_load_case {} {} ∧
    generate_single_xml_config sample_load_case {} {} =
      xml_head sample_load_case ++
        str_concat ((List.range (GeometryConfig.mounting_points {}).length).map
          (force_block sample_load_case)) ++
        xml_tail {} ∧
    force_block sample_load_case 0 =
      "\n          <force name=\"" ++ sample_load_case.name ++ "_force_" ++
      toString (0 + 1) ++
      "\">\n            <comp dof=\"x\" value=\"" ++
      fmt6 (spec_force_components sample_load_case).1 ++
      "\"/>\n            <comp dof=\"y\" value=\"" ++
      fmt6 (spec_force_components sample_load_case).2.1 ++
      "\"/>\n            <comp dof=\"z\" value=\"" ++
      fmt6 (spec_force_components sample_load_case).2.2 ++
      "\"/>\n          </force>" :=
  ⟨(xml_compiler_deterministic sample_load_case sample_load_case {} {} {} {}
      ⟨rfl, rfl, rfl⟩).1,
   (xml_compiler_deterministic sample_load_case sample_load_case {} {} {} {}
      ⟨rfl, rfl, rfl⟩).2.1,
   (xml_compiler_deterministic sample_load_case sample_load_case {} {} {} {}
      ⟨rfl, rfl, rfl⟩).2.2 0⟩

/-- C10: the serializer prints node and element ids as the 0-based internal
index plus one; the selector-built boundary sets store the 0-based internal
indices (each stored id addresses an existing node); the serialized
boundary-condition block depends only on set names and member counts (so it
never exposes node ids); and the `NumNodeBC` header value is the sum of the
member counts of all sets. -/
theorem serializer_id_conventions (m : MockMesh) (nodes : List (ℚ × ℚ × ℚ)) :
    (∀ idx (p : ℚ × ℚ × ℚ), m.nodes[idx]? = some p →
      (nodes_block m)[idx]? = some (toString (idx + 1) ++ "  " ++ fmt6 p.1 ++
        "  " ++ fmt6 p.2.1 ++ "  " ++ fmt6 p.2.2)) ∧
    (∀ idx (e : MockElement), m.elements[idx]? = some e →
      (elements_block m)[idx]? =
        some (toString (idx + 1) ++ "  brick  " ++ e.region)) ∧
    (∀ idx, idx ∈ back_support_nodes nodes → ∃ x y z : ℚ,
      nodes[idx]? = some (x, y, z) ∧ 4 < x ∧ x < 6 ∧ 0 < y ∧ y < 8 ∧
        WALL_PLATE_Z_MIN < z ∧ z < WALL_PLATE_Z_MAX) ∧
    (∀ (name : String) (s1 s2 : List ℕ), s1.length = s2.length →
      bc_line (name, s1) = bc_line (name, s2)) ∧
    num_node_bc m = (m.bc.map (fun b => b.2.length)).sum := by
  refine ⟨?_, ?_, ?_, ?_, rfl⟩
  · intro idx p hp
    unfold nodes_block
    rw [List.getElem?_map, List.getElem?_enum, hp]
    rfl
  · intro idx e hp
    unfold elements_block
    rw [List.getElem?_map, List.getElem?_enum, hp]
    rfl
  · intro idx hidx
    unfold back_support_nodes at hidx
    rcases List.mem_map.mp hidx with ⟨p, hp, hfst⟩
    rcases List.mem_filter.mp hp with ⟨hpe, hcond⟩
    obtain ⟨pi, px, py, pz⟩ := p
    simp only at hfst
    subst hfst
    have hsome : nodes[pi]? = some (px, py, pz) :=
      List.mk_mem_enum_iff_getElem?.mp hpe
    rw [decide_eq_true_eq] at hcond
    exact ⟨px, py, pz, hsome, hcond⟩
  · intro name s1 s2 hlen
    unfold bc_line
    simp only
    rw [hlen]

/-- Witness for C10 on a one-node, one-element mesh whose single stored
boundary id 0 addresses the node printed with id 1. -/
theorem serializer_id_conventions_witness :
    (nodes_block sample_mesh)[0]? =
      some (toString (0 + 1) ++ "  " ++ fmt6 (5 : ℚ) ++ "  " ++ fmt6 (4 : ℚ) ++
        "  " ++ fmt6 (1/8 : ℚ)) ∧
    (elements_block sample_mesh)[0]? =
      some (toString (0 + 1) ++ "  brick  " ++ "mech") ∧
    (∃ x y z : ℚ, sample_mesh.nodes[0]? = some (x, y, z) ∧ 4 < x ∧ x < 6 ∧
      0 < y ∧ y < 8 ∧ WALL_PLATE_Z_MIN < z ∧ z < WALL_PLATE_Z_MAX) ∧
    bc_line ("back_support", [0, 2]) = bc_line ("back_support", [7, 9]) ∧
    num_node_bc sample_mesh = (sample_mesh.bc.map (fun b => b.2.length)).sum :=
  ⟨(serializer_id_conventions sample_mesh sample_mesh.nodes).1 0
      ((5 : ℚ), 4, 1/8) (by rfl),
   (serializer_id_conventions sample_mesh sample_mesh.nodes).2.1 0
      { center := (5, 4, 3), region := "mech" } (by rfl),
   (serializer_id_conventions sample_mesh sample_mesh.nodes).2.2.1 0 (by decide),
   (serializer_id_conventions sample_mesh sample_mesh.nodes).2.2.2.1
      "back_support" [0, 2] [7, 9] (by decide),
   (serializer_id_conventions sample_mesh sample_mesh.nodes).2.2.2.2⟩

/-- Counterexample to C5 as stated: for the downscaled geometry the z-cell
size is dz = (1/10)/2 = 1/20 and the configured wall/mount thickness 3/100
is not an integer multiple of it, yet `generate_adaptive_mesh` performs no
validation and returns a fully classified 27-node, 8-element mesh instead of
raising anything (no `InvalidThicknessDiscretizationError` exists in the
code). -/
theorem thickness_validation_counterexample :
    (∀ c : ℕ, small_geometry.wall_thickness ≠ (c : ℚ) * ((1/10) / (2 : ℚ))) ∧
    (generate_adaptive_mesh small_geometry 1 ["static_tv_weight"]).toOption.map
      (fun m => (m.nodes.length, m.elements.length)) = some (27, 8) := by
  constructor
  · intro c hc
    have hw : small_geometry.wall_thickness = 3/100 := rfl
    rw [hw] at hc
    rcases Nat.eq_zero_or_pos c with h0 | hpos
    · subst h0
      norm_num at hc
    · have h1 : (1 : ℚ) ≤ (c : ℚ) := by exact_mod_cast hpos
      nlinarith [hc, h1]
  · decide

/-- C5 amended: the engine performs no thickness validation.  Whenever the
derived resolutions are all nonzero, `generate_adaptive_mesh` succeeds and
returns a classified mesh for every configured wall/mount thickness —
including thicknesses that are not an integer multiple of the z-cell size —
rather than raising an `InvalidThicknessDiscretizationError`. -/
theorem generate_adaptive_mesh_no_thickness_validation (g : GeometryConfig)
    (base : ℕ) (lcs : List String)
    (hx : max base (⌊g.width * 20⌋).toNat ≠ 0)
    (hy : (⌊(g.height / g.width) * ((max base (⌊g.width * 20⌋).toNat : ℕ) : ℚ)⌋).toNat ≠ 0)
    (hz : (⌊(g.depth / g.width) * ((max base (⌊g.width * 20⌋).toNat : ℕ) : ℚ)⌋).toNat ≠ 0) :
    ∃ m : MockMesh, generate_adaptive_mesh g base lcs = Except.ok m := by
  simp only [generate_adaptive_mesh, create_3d_mesh, create_structured_mesh]
  rw [if_neg (by push_neg; exact ⟨hx, hy, hz⟩)]
  exact ⟨_, rfl⟩

/-- Witness for the amended C5 theorem at the downscaled geometry. -/
theorem generate_adaptive_mesh_no_thickness_validation_witness :
    ∃ m : MockMesh,
      generate_adaptive_mesh small_geometry 1 ["static_tv_weight"] =
        Except.ok m :=
  generate_adaptive_mesh_no_thickness_validation small_geometry 1
    ["static_tv_weight"] (by decide) (by decide) (by decide)
